import Mathlib

/-!
Shallow embedding of the dual-peripheral BLE connection manager of the
esp32-xbox-lego-rc repository (src/src/ble_manager.cpp, src/src/main.cpp,
config.h / ble_manager.h).

The transport layer (NimBLE) is modelled by explicit fields on the manager
state (does a client object exist, does the client report a live link) and
by an oracle `conn : String → Bool` that answers whether a blocking
`client->connect(address)` call succeeds for a given address.  Side effects
that matter to the claims (state writes, transport connect attempts, fixed
delays) are recorded in an event trace.
-/

/-- Per-role connection state, `enum class BLEState` of ble_manager.h. -/
inductive BLEState where
  | IDLE
  | SCANNING
  | CONNECTING
  | CONNECTED
  | DISCONNECTED
  | ERROR
deriving DecidableEq, Repr

/-- `struct DeviceInfo` of ble_manager.h: one discovered peripheral.
`NimBLEAddress` is modelled as its string rendering. -/
structure DeviceInfo where
  name : String
  address : String
  rssi : Int
  found : Bool
deriving DecidableEq, Repr

/-- The two peripheral roles managed by the bridge. -/
inductive Role where
  | xbox
  | lego
deriving DecidableEq, Repr

/-- Observable side effects of the manager, ordered as they occur. -/
inductive BLEEvent where
  | stateWrite (r : Role) (s : BLEState)
  | transportConnect (r : Role) (address : String)
  | delayMs (n : Nat)
deriving DecidableEq, Repr

/-- The state of `class BLEManager` (ble_manager.h): the two transport
client handles (existence and transport-level connectedness), the two
Device Records, the two per-role states and the scanning flag. -/
structure BLEManager where
  xboxClientExists : Bool
  legoClientExists : Bool
  xboxClientConnected : Bool
  legoClientConnected : Bool
  xboxInfo : DeviceInfo
  legoInfo : DeviceInfo
  xboxState : BLEState
  legoState : BLEState
  scanning : Bool
deriving DecidableEq, Repr

/-- `XBOX_CONTROLLER_NAME_PREFIX` of config.h. -/
def XBOX_CONTROLLER_NAME_PREFIX : String := "Xbox"

/-- `LEGO_HUB_NAME` of config.h. -/
def LEGO_HUB_NAME : String := "Technic Move"

/-- `BLE_SCAN_DURATION` of config.h (seconds). -/
def BLE_SCAN_DURATION : Nat := 10

/-- Does the character list start with the pattern (second argument)?
Models the character-by-character test of Arduino `String::startsWith`. -/
def listStartsWith : List Char → List Char → Bool
  | _, [] => true
  | [], _ :: _ => false
  | a :: as, b :: bs => a == b && listStartsWith as bs

/-- Does the character list contain the pattern as a contiguous run?
Models Arduino `String::indexOf(pat) >= 0`. -/
def listHasRun (pat : List Char) : List Char → Bool
  | [] => listStartsWith [] pat
  | a :: as => listStartsWith (a :: as) pat || listHasRun pat as

/-- Arduino `String::startsWith` (case-sensitive prefix comparison). -/
def strStartsWith (s pat : String) : Bool := listStartsWith s.data pat.data

/-- Arduino `String::indexOf(pat) >= 0` (case-sensitive substring test). -/
def strContains (s pat : String) : Bool := listHasRun pat.data s.data

/-- `BLEManager::resetDeviceInfo` (ble_manager.cpp:244-249). -/
def resetDeviceInfo : DeviceInfo :=
  { name := "", address := "", rssi := 0, found := false }

/-- `BLEManager::startScan` (ble_manager.cpp:59-89), restricted to the
manager state: resets both Device Records, sets the scanning flag and puts
both roles in `SCANNING`.  The duration is handed to the transport scan and
does not affect the manager state. -/
def startScan (_duration : Nat) (m : BLEManager) : BLEManager :=
  { m with
    xboxInfo := resetDeviceInfo
    legoInfo := resetDeviceInfo
    scanning := true
    xboxState := BLEState.SCANNING
    legoState := BLEState.SCANNING }

/-- `BLEManager::stopScan` (ble_manager.cpp:91-105). -/
def stopScan (m : BLEManager) : BLEManager :=
  if m.scanning then
    let m1 := { m with scanning := false }
    let m2 :=
      if !m1.xboxInfo.found && m1.xboxState == BLEState.SCANNING then
        { m1 with xboxState := BLEState.IDLE }
      else m1
    if !m2.legoInfo.found && m2.legoState == BLEState.SCANNING then
      { m2 with legoState := BLEState.IDLE }
    else m2
  else m

/-- `BLEManager::connectToXbox` (ble_manager.cpp:131-152).  `conn` is the
transport oracle: `conn a` is the result of the blocking
`xboxClient->connect(a)`.  Returns the C++ return value, the new manager
state, and the ordered side-effect trace. -/
def connectToXbox (conn : String → Bool) (m : BLEManager) :
    Bool × BLEManager × List BLEEvent :=
  if !m.xboxInfo.found then (false, m, [])
  else
    let m1 := { m with xboxState := BLEState.CONNECTING }
    if conn m.xboxInfo.address then
      (true,
       { m1 with xboxState := BLEState.CONNECTED, xboxClientConnected := true },
       [BLEEvent.stateWrite Role.xbox BLEState.CONNECTING,
        BLEEvent.transportConnect Role.xbox m.xboxInfo.address,
        BLEEvent.stateWrite Role.xbox BLEState.CONNECTED])
    else
      (false,
       { m1 with xboxState := BLEState.ERROR },
       [BLEEvent.stateWrite Role.xbox BLEState.CONNECTING,
        BLEEvent.transportConnect Role.xbox m.xboxInfo.address,
        BLEEvent.stateWrite Role.xbox BLEState.ERROR])

/-- `BLEManager::connectToLego` (ble_manager.cpp:154-175). -/
def connectToLego (conn : String → Bool) (m : BLEManager) :
    Bool × BLEManager × List BLEEvent :=
  if !m.legoInfo.found then (false, m, [])
  else
    let m1 := { m with legoState := BLEState.CONNECTING }
    if conn m.legoInfo.address then
      (true,
       { m1 with legoState := BLEState.CONNECTED, legoClientConnected := true },
       [BLEEvent.stateWrite Role.lego BLEState.CONNECTING,
        BLEEvent.transportConnect Role.lego m.legoInfo.address,
        BLEEvent.stateWrite Role.lego BLEState.CONNECTED])
    else
      (false,
       { m1 with legoState := BLEState.ERROR },
       [BLEEvent.stateWrite Role.lego BLEState.CONNECTING,
        BLEEvent.transportConnect Role.lego m.legoInfo.address,
        BLEEvent.stateWrite Role.lego BLEState.ERROR])

/-- `BLEManager::disconnectXbox` (ble_manager.cpp:177-183). -/
def disconnectXbox (m : BLEManager) : BLEManager :=
  if m.xboxClientExists && m.xboxClientConnected then
    { m with xboxClientConnected := false, xboxState := BLEState.DISCONNECTED }
  else m

/-- `BLEManager::disconnectLego` (ble_manager.cpp:185-191). -/
def disconnectLego (m : BLEManager) : BLEManager :=
  if m.legoClientExists && m.legoClientConnected then
    { m with legoClientConnected := false, legoState := BLEState.DISCONNECTED }
  else m

/-- `BLEManager::disconnectAll` (ble_manager.cpp:193-196). -/
def disconnectAll (m : BLEManager) : BLEManager :=
  disconnectLego (disconnectXbox m)

/-- `BLEManager::isXboxConnected` (ble_manager.cpp:206-208). -/
def isXboxConnected (m : BLEManager) : Bool :=
  m.xboxClientExists && m.xboxClientConnected && (m.xboxState == BLEState.CONNECTED)

/-- `BLEManager::isLegoConnected` (ble_manager.cpp:210-212). -/
def isLegoConnected (m : BLEManager) : Bool :=
  m.legoClientExists && m.legoClientConnected && (m.legoState == BLEState.CONNECTED)

/-- `BLEManager::handleXboxDisconnect` (ble_manager.cpp:234-237): the
asynchronous disconnect notification for the Controller role. -/
def handleXboxDisconnect (m : BLEManager) : BLEManager :=
  { m with xboxState := BLEState.DISCONNECTED }

/-- `BLEManager::handleLegoDisconnect` (ble_manager.cpp:239-242). -/
def handleLegoDisconnect (m : BLEManager) : BLEManager :=
  { m with legoState := BLEState.DISCONNECTED }

/-- One observed advertisement (name, address, signal strength). -/
structure Advertisement where
  name : String
  address : String
  rssi : Int
deriving DecidableEq, Repr

/-- `AdvertisedDeviceCallbacks::onResult` (ble_manager.cpp:270-313),
restricted to the manager state: the Controller check (name-prefix match,
guarded by the found flag), then the Hub check (substring match, guarded by
the found flag).  The early scan stop when both roles are found only
touches the transport scan object, not the manager state. -/
def onResult (adv : Advertisement) (m : BLEManager) : BLEManager :=
  let m1 :=
    if !m.xboxInfo.found && strStartsWith adv.name XBOX_CONTROLLER_NAME_PREFIX then
      { m with xboxInfo :=
        { name := adv.name, address := adv.address, rssi := adv.rssi, found := true } }
    else m
  if !m1.legoInfo.found && strContains adv.name LEGO_HUB_NAME then
    { m1 with legoInfo :=
      { name := adv.name, address := adv.address, rssi := adv.rssi, found := true } }
  else m1

/-- Per-role Device Record accessor. -/
def BLEManager.roleInfo (m : BLEManager) : Role → DeviceInfo
  | Role.xbox => m.xboxInfo
  | Role.lego => m.legoInfo

/-- Per-role connection state accessor. -/
def BLEManager.roleState (m : BLEManager) : Role → BLEState
  | Role.xbox => m.xboxState
  | Role.lego => m.legoState

/-- Per-role transport client existence. -/
def BLEManager.roleClientExists (m : BLEManager) : Role → Bool
  | Role.xbox => m.xboxClientExists
  | Role.lego => m.legoClientExists

/-- Per-role transport-level connectedness. -/
def BLEManager.roleClientConnected (m : BLEManager) : Role → Bool
  | Role.xbox => m.xboxClientConnected
  | Role.lego => m.legoClientConnected

/-- Role-indexed dispatch to `connectToXbox` / `connectToLego`. -/
def connectTo : Role → (String → Bool) → BLEManager → Bool × BLEManager × List BLEEvent
  | Role.xbox => connectToXbox
  | Role.lego => connectToLego

/-- Role-indexed dispatch to `isXboxConnected` / `isLegoConnected`. -/
def isConnectedRole : Role → BLEManager → Bool
  | Role.xbox => isXboxConnected
  | Role.lego => isLegoConnected

/-- Role-indexed dispatch to the disconnect notification handlers. -/
def handleDisconnectRole : Role → BLEManager → BLEManager
  | Role.xbox => handleXboxDisconnect
  | Role.lego => handleLegoDisconnect

/-- `enum ErrorCode` of config.h. -/
inductive ErrorCode where
  | ERR_NONE
  | ERR_BLE_INIT_FAILED
  | ERR_XBOX_NOT_FOUND
  | ERR_LEGO_NOT_FOUND
  | ERR_XBOX_CONNECT_FAILED
  | ERR_LEGO_CONNECT_FAILED
  | ERR_XBOX_DISCONNECTED
  | ERR_LEGO_DISCONNECTED
  | ERR_SETTINGS_LOAD_FAILED
  | ERR_SETTINGS_SAVE_FAILED
deriving DecidableEq, Repr

/-- `enum class AppState` of main.cpp. -/
inductive AppState where
  | INIT
  | SCANNING
  | CONNECTING
  | CONNECTED
  | ACTIVE
  | ERROR
deriving DecidableEq, Repr

/-- The application-level state of main.cpp: `currentState`, the BLE
manager instance (present after `setup`), and the `connectingStarted`
static latch of the `CONNECTING` case of `loop`. -/
structure SysState where
  currentState : AppState
  ble : BLEManager
  connectingStarted : Bool
deriving DecidableEq, Repr

/-- Modelled from the spec: `BLEManager::resetForReconnection` is called by
`handleError` (main.cpp:361,371) but its definition is not among the source
files; per §4.3 and the glossary, the recovery cycle performs a best-effort
disconnect-all before restarting discovery. -/
def resetForReconnection (m : BLEManager) : BLEManager :=
  disconnectAll m

/-- `handleError` (main.cpp:332-384).  The two disconnect codes reset the
manager, wait a fixed cooldown, set the application state to `SCANNING` and
restart the scan (`startScanning` → `startScan`); every other code sets the
application state to `ERROR`. -/
def handleError (e : ErrorCode) (s : SysState) : SysState :=
  match e with
  | ErrorCode.ERR_XBOX_DISCONNECTED =>
      { s with
        ble := startScan BLE_SCAN_DURATION (resetForReconnection s.ble)
        currentState := AppState.SCANNING }
  | ErrorCode.ERR_LEGO_DISCONNECTED =>
      { s with
        ble := startScan BLE_SCAN_DURATION (resetForReconnection s.ble)
        currentState := AppState.SCANNING }
  | _ => { s with currentState := AppState.ERROR }

/-- The `AppState::CONNECTING` case of `loop` (main.cpp:142-180): when the
latch is clear, set it, connect to the Controller; on Controller success
wait the fixed stabilization delay and connect to the Hub; on either
failure call `handleError` with the role-specific code; clear the latch. -/
def connectingStep (conn : String → Bool) (s : SysState) :
    SysState × List BLEEvent :=
  if s.connectingStarted then (s, [])
  else
    match connectToXbox conn s.ble with
    | (true, ble1, ev1) =>
      match connectToLego conn ble1 with
      | (true, ble2, ev2) =>
          ({ s with
              ble := ble2
              currentState := AppState.CONNECTED
              connectingStarted := false },
           ev1 ++ BLEEvent.delayMs 1000 :: ev2)
      | (false, ble2, ev2) =>
          let s2 := handleError ErrorCode.ERR_LEGO_CONNECT_FAILED { s with ble := ble2 }
          ({ s2 with connectingStarted := false },
           ev1 ++ BLEEvent.delayMs 1000 :: ev2)
    | (false, ble1, ev1) =>
      let s2 := handleError ErrorCode.ERR_XBOX_CONNECT_FAILED { s with ble := ble1 }
      ({ s2 with connectingStarted := false }, ev1)

/-- The `AppState::ACTIVE` case of `loop` (main.cpp:189-214): poll both
roles for liveness and route an observed disconnect through `handleError`;
the control tick touches none of the modelled state. -/
def activeStep (s : SysState) : SysState :=
  if !isXboxConnected s.ble then handleError ErrorCode.ERR_XBOX_DISCONNECTED s
  else if !isLegoConnected s.ble then handleError ErrorCode.ERR_LEGO_DISCONNECTED s
  else s

/-- The `AppState::SCANNING` case of `loop` (main.cpp:112-140): once the
scan has ended, advance to `CONNECTING` when both roles were found,
otherwise wait a fixed cooldown and restart the scan. -/
def scanningStep (s : SysState) : SysState × List BLEEvent :=
  if !s.ble.scanning then
    if s.ble.xboxInfo.found && s.ble.legoInfo.found then
      ({ s with currentState := AppState.CONNECTING }, [])
    else
      ({ s with ble := startScan BLE_SCAN_DURATION s.ble }, [BLEEvent.delayMs 3000])
  else (s, [])

/-- One iteration of the `loop` state machine of main.cpp (the periodic
display/serial housekeeping touches none of the modelled state). -/
def loopStep (conn : String → Bool) (s : SysState) : SysState × List BLEEvent :=
  match s.currentState with
  | AppState.INIT => (s, [])
  | AppState.SCANNING => scanningStep s
  | AppState.CONNECTING => connectingStep conn s
  | AppState.CONNECTED => ({ s with currentState := AppState.ACTIVE }, [])
  | AppState.ACTIVE => (activeStep s, [])
  | AppState.ERROR => (s, [])

/-! ## Helper lemmas -/

theorem listStartsWith_iff (p l : List Char) :
    listStartsWith l p = true ↔ ∃ t, l = p ++ t := by
  induction p generalizing l with
  | nil => simp [listStartsWith]
  | cons b bs ih =>
    cases l with
    | nil => simp [listStartsWith]
    | cons a as =>
      simp [listStartsWith, ih, List.cons.injEq, exists_and_left]

theorem listHasRun_iff (p l : List Char) :
    listHasRun p l = true ↔ ∃ u v, l = u ++ p ++ v := by
  induction l with
  | nil =>
    simp [listHasRun, listStartsWith_iff]
  | cons a as ih =>
    simp only [listHasRun, Bool.or_eq_true, listStartsWith_iff, ih]
    constructor
    · rintro (⟨t, ht⟩ | ⟨u, v, huv⟩)
      · exact ⟨[], t, by simpa using ht⟩
      · exact ⟨a :: u, v, by simp [huv]⟩
    · rintro ⟨u, v, huv⟩
      cases u with
      | nil => exact Or.inl ⟨v, by simpa using huv⟩
      | cons a' u' =>
        refine Or.inr ⟨u', v, ?_⟩
        rw [List.append_assoc]
        exact (by simpa using huv : a = a' ∧ as = u' ++ (p ++ v)).2

theorem string_eq_of_data_eq {a b : String} (h : a.data = b.data) : a = b := by
  cases a; cases b; exact congrArg String.mk h

theorem strStartsWith_iff (s pat : String) :
    strStartsWith s pat = true ↔ ∃ t, s = pat ++ t := by
  rw [strStartsWith, listStartsWith_iff]
  constructor
  · rintro ⟨tl, h⟩
    refine ⟨⟨tl⟩, string_eq_of_data_eq ?_⟩
    rw [String.data_append]
    exact h
  · rintro ⟨t, rfl⟩
    exact ⟨t.data, String.data_append pat t⟩

theorem strContains_iff (s pat : String) :
    strContains s pat = true ↔ ∃ u v, s = u ++ pat ++ v := by
  rw [strContains, listHasRun_iff]
  constructor
  · rintro ⟨ul, vl, h⟩
    refine ⟨⟨ul⟩, ⟨vl⟩, string_eq_of_data_eq ?_⟩
    rw [String.data_append, String.data_append]
    exact h
  · rintro ⟨u, v, rfl⟩
    exact ⟨u.data, v.data, by rw [String.data_append, String.data_append]⟩

/-- No event of `connectToXbox` mentions the Hub role. -/
theorem connectToXbox_no_lego_connect (conn : String → Bool) (m : BLEManager)
    (a : String) :
    BLEEvent.transportConnect Role.lego a ∉ (connectToXbox conn m).2.2 := by
  unfold connectToXbox
  split
  · simp
  · split <;> simp

/-! ## Sample states for witnesses -/

/-- A manager state in which both roles have been discovered. -/
def mgrFound : BLEManager :=
  { xboxClientExists := true
    legoClientExists := true
    xboxClientConnected := false
    legoClientConnected := false
    xboxInfo := { name := "Xbox Wireless Controller", address := "44:16:22:aa:bb:cc", rssi := -40, found := true }
    legoInfo := { name := "Technic Move", address := "90:84:2b:11:22:33", rssi := -55, found := true }
    xboxState := BLEState.SCANNING
    legoState := BLEState.SCANNING
    scanning := false }

/-- A manager state in which neither role has been discovered. -/
def mgrNotFound : BLEManager :=
  { xboxClientExists := true
    legoClientExists := true
    xboxClientConnected := false
    legoClientConnected := false
    xboxInfo := resetDeviceInfo
    legoInfo := resetDeviceInfo
    xboxState := BLEState.SCANNING
    legoState := BLEState.SCANNING
    scanning := true }

/-! ## Claims -/

/-- C1: for each role, when the role's Device Record has `found = true`,
`connect(role)` first sets that role's state to `Connecting`, then attempts
a blocking transport connect to the recorded address; on transport success
the role's state is `Connected` and the call returns `true`, on failure the
role's state is `Error` and the call returns `false`. -/
theorem connect_found_behavior (r : Role) (conn : String → Bool) (m : BLEManager)
    (h : (m.roleInfo r).found = true) :
    (connectTo r conn m).2.2 =
      [BLEEvent.stateWrite r BLEState.CONNECTING,
       BLEEvent.transportConnect r ((m.roleInfo r).address),
       BLEEvent.stateWrite r
         (if conn ((m.roleInfo r).address) then BLEState.CONNECTED else BLEState.ERROR)] ∧
    (connectTo r conn m).1 = conn ((m.roleInfo r).address) ∧
    ((connectTo r conn m).2.1).roleState r =
      (if conn ((m.roleInfo r).address) then BLEState.CONNECTED else BLEState.ERROR) := by
  cases r with
  | xbox =>
    simp only [BLEManager.roleInfo] at h ⊢
    by_cases hc : conn m.xboxInfo.address <;>
      simp [connectTo, connectToXbox, h, hc, BLEManager.roleState]
  | lego =>
    simp only [BLEManager.roleInfo] at h ⊢
    by_cases hc : conn m.legoInfo.address <;>
      simp [connectTo, connectToLego, h, hc, BLEManager.roleState]

theorem connect_found_behavior_witness :
    (mgrFound.roleInfo Role.xbox).found = true ∧
    (connectTo Role.xbox (fun _ => true) mgrFound).2.2 =
      [BLEEvent.stateWrite Role.xbox BLEState.CONNECTING,
       BLEEvent.transportConnect Role.xbox "44:16:22:aa:bb:cc",
       BLEEvent.stateWrite Role.xbox BLEState.CONNECTED] ∧
    (connectTo Role.xbox (fun _ => true) mgrFound).1 = true ∧
    ((connectTo Role.xbox (fun _ => true) mgrFound).2.1).roleState Role.xbox =
      BLEState.CONNECTED := by
  have h := connect_found_behavior Role.xbox (fun _ => true) mgrFound rfl
  exact ⟨rfl, by simpa using h.1, by simpa using h.2.1, by simpa using h.2.2⟩

/-- C2: for each role, `connect(role)` invoked while the role's Device
Record has `found = false` returns `false` and leaves the whole manager
state unchanged (both per-role states, both Device Records and the
scanning flag) and performs no transport side effect. -/
theorem connect_notFound_noop (r : Role) (conn : String → Bool) (m : BLEManager)
    (h : (m.roleInfo r).found = false) :
    connectTo r conn m = (false, m, []) := by
  cases r <;>
    simp only [BLEManager.roleInfo] at h <;>
    simp [connectTo, connectToXbox, connectToLego, h]

theorem connect_notFound_noop_witness :
    (mgrNotFound.roleInfo Role.xbox).found = false ∧
    connectTo Role.xbox (fun _ => true) mgrNotFound = (false, mgrNotFound, []) :=
  ⟨rfl, connect_notFound_noop Role.xbox (fun _ => true) mgrNotFound rfl⟩

/-- C6: `isConnected(role)` is true exactly when the transport client
exists, reports a live connection, and the recorded per-role state is
`Connected`; immediately after a disconnect notification for the role the
query is `false` regardless of what the transport still reports. -/
theorem isConnected_spec (r : Role) (m : BLEManager) :
    (isConnectedRole r m = true ↔
      (m.roleClientExists r = true ∧ m.roleClientConnected r = true ∧
       m.roleState r = BLEState.CONNECTED)) ∧
    isConnectedRole r (handleDisconnectRole r m) = false := by
  cases r <;>
    simp [isConnectedRole, isXboxConnected, isLegoConnected,
      handleDisconnectRole, handleXboxDisconnect, handleLegoDisconnect,
      BLEManager.roleClientExists, BLEManager.roleClientConnected,
      BLEManager.roleState, and_assoc]

/-- C10: `startScan` unconditionally puts both roles in `Scanning`, raises
the scanning flag, and resets both Device Records to the empty/not-found
record, whatever the prior states were. -/
theorem startScan_overwrites (d : Nat) (m : BLEManager) :
    (startScan d m).xboxState = BLEState.SCANNING ∧
    (startScan d m).legoState = BLEState.SCANNING ∧
    (startScan d m).scanning = true ∧
    (startScan d m).xboxInfo = resetDeviceInfo ∧
    (startScan d m).legoInfo = resetDeviceInfo ∧
    (startScan d m).xboxInfo.found = false ∧
    (startScan d m).legoInfo.found = false := by
  simp [startScan, resetDeviceInfo]

/-- C7: within a scan cycle, once a role's found flag is set, a further
advertisement — matching or not — leaves that role's Device Record
untouched (first match wins). -/
theorem onResult_found_idempotent (adv : Advertisement) (m : BLEManager) (r : Role)
    (h : (m.roleInfo r).found = true) :
    (onResult adv m).roleInfo r = m.roleInfo r := by
  cases r with
  | xbox =>
    simp only [BLEManager.roleInfo] at h ⊢
    unfold onResult
    simp only [h]
    split <;> split <;> simp_all
  | lego =>
    simp only [BLEManager.roleInfo] at h ⊢
    unfold onResult
    split <;> simp_all

theorem onResult_found_idempotent_witness :
    (mgrFound.roleInfo Role.xbox).found = true ∧
    (onResult { name := "Xbox Wireless Controller", address := "ff:ff:ff:ff:ff:ff", rssi := -70 }
        mgrFound).roleInfo Role.xbox = mgrFound.roleInfo Role.xbox :=
  ⟨rfl,
   onResult_found_idempotent
     { name := "Xbox Wireless Controller", address := "ff:ff:ff:ff:ff:ff", rssi := -70 }
     mgrFound Role.xbox rfl⟩

/-- The Controller record written by `onResult`, as a guarded update. -/
theorem onResult_xboxInfo (adv : Advertisement) (m : BLEManager) :
    (onResult adv m).xboxInfo =
      (if !m.xboxInfo.found && strStartsWith adv.name XBOX_CONTROLLER_NAME_PREFIX
       then { name := adv.name, address := adv.address, rssi := adv.rssi, found := true }
       else m.xboxInfo) := by
  unfold onResult
  by_cases h1 : !m.xboxInfo.found && strStartsWith adv.name XBOX_CONTROLLER_NAME_PREFIX <;>
    by_cases h2 : !m.legoInfo.found && strContains adv.name LEGO_HUB_NAME <;>
      simp [h1, h2]

/-- The Hub record written by `onResult`, as a guarded update. -/
theorem onResult_legoInfo (adv : Advertisement) (m : BLEManager) :
    (onResult adv m).legoInfo =
      (if !m.legoInfo.found && strContains adv.name LEGO_HUB_NAME
       then { name := adv.name, address := adv.address, rssi := adv.rssi, found := true }
       else m.legoInfo) := by
  unfold onResult
  by_cases h1 : !m.xboxInfo.found && strStartsWith adv.name XBOX_CONTROLLER_NAME_PREFIX <;>
    by_cases h2 : !m.legoInfo.found && strContains adv.name LEGO_HUB_NAME <;>
      simp [h1, h2]

/-- C8: the advertisement callback mutates the Controller record exactly
when the role is still unfound and the advertised name starts with the
configured prefix string, and mutates the Hub record exactly when that role
is still unfound and the advertised name contains the configured fragment
as a substring; the two rules are evaluated independently of one another. -/
theorem onResult_matching_rules (adv : Advertisement) (m : BLEManager) :
    ((onResult adv m).xboxInfo ≠ m.xboxInfo ↔
      (m.xboxInfo.found = false ∧ ∃ t, adv.name = XBOX_CONTROLLER_NAME_PREFIX ++ t)) ∧
    ((onResult adv m).legoInfo ≠ m.legoInfo ↔
      (m.legoInfo.found = false ∧ ∃ u v, adv.name = u ++ LEGO_HUB_NAME ++ v)) := by
  constructor
  · rw [onResult_xboxInfo, ← strStartsWith_iff]
    by_cases hf : m.xboxInfo.found <;>
      by_cases hs : strStartsWith adv.name XBOX_CONTROLLER_NAME_PREFIX <;>
        simp [hf, hs]
    intro heq
    rw [← heq] at hf
    simp at hf
  · rw [onResult_legoInfo, ← strContains_iff]
    by_cases hf : m.legoInfo.found <;>
      by_cases hc : strContains adv.name LEGO_HUB_NAME <;>
        simp [hf, hc]
    intro heq
    rw [← heq] at hf
    simp at hf

/-- C9: `stopScan` during a scan clears the scanning flag and, for each
role still unfound and in `Scanning`, moves it to `Idle`, while found roles
and non-`Scanning` roles keep their state and every Device Record is
untouched; `stopScan` outside a scan is the identity. -/
theorem stopScan_spec (m : BLEManager) :
    (m.scanning = false → stopScan m = m) ∧
    (m.scanning = true →
      (stopScan m).scanning = false ∧
      ∀ r : Role,
        (stopScan m).roleState r =
          (if (m.roleInfo r).found = false ∧ m.roleState r = BLEState.SCANNING
           then BLEState.IDLE else m.roleState r) ∧
        (stopScan m).roleInfo r = m.roleInfo r) := by
  constructor
  · intro h
    simp [stopScan, h]
  · intro h
    by_cases h1 : m.xboxInfo.found = false ∧ m.xboxState = BLEState.SCANNING <;>
      by_cases h2 : m.legoInfo.found = false ∧ m.legoState = BLEState.SCANNING <;>
        refine ⟨by simp [stopScan, h, h1, h2], ?_⟩ <;>
          intro r <;>
            cases r <;>
              simp [stopScan, h, h1, h2, BLEManager.roleState, BLEManager.roleInfo]

theorem stopScan_spec_witness :
    mgrNotFound.scanning = true ∧
    ((stopScan mgrNotFound).scanning = false ∧
     (stopScan mgrNotFound).roleState Role.xbox = BLEState.IDLE ∧
     (stopScan mgrNotFound).roleInfo Role.xbox = mgrNotFound.roleInfo Role.xbox) := by
  have h := (stopScan_spec mgrNotFound).2 rfl
  refine ⟨rfl, h.1, ?_, (h.2 Role.xbox).2⟩
  have hx := (h.2 Role.xbox).1
  simpa using hx

/-- C3: in a Connecting step of the application loop, a Hub transport
connect attempt occurs only if the Controller connect attempt of that same
step returned success. -/
theorem hub_connect_requires_controller_success (conn : String → Bool)
    (s : SysState) (a : String)
    (h : BLEEvent.transportConnect Role.lego a ∈ (connectingStep conn s).2) :
    (connectToXbox conn s.ble).1 = true := by
  unfold connectingStep at h
  by_cases hl : s.connectingStarted
  · rw [if_pos hl] at h
    simp at h
  · rw [if_neg hl] at h
    split at h
    · next ble1 ev1 heq =>
        split at h
        · rw [heq]
        · rw [heq]
    · next ble1 ev1 heq =>
        have hno := connectToXbox_no_lego_connect conn s.ble a
        rw [heq] at hno
        exact absurd h hno

theorem hub_connect_requires_controller_success_witness :
    (BLEEvent.transportConnect Role.lego "90:84:2b:11:22:33" ∈
      (connectingStep (fun _ => true)
        { currentState := AppState.CONNECTING, ble := mgrFound,
          connectingStarted := false }).2) ∧
    (connectToXbox (fun _ => true) mgrFound).1 = true :=
  ⟨by decide,
   hub_connect_requires_controller_success (fun _ => true)
     { currentState := AppState.CONNECTING, ble := mgrFound, connectingStarted := false }
     "90:84:2b:11:22:33" (by decide)⟩

/-- C4 counterexample: with the Controller found and a transport that
refuses every connect, one Connecting step of the loop leaves the
application state at `ERROR`, not `CONNECTING`: the claim that the state is
still `Connecting` after a Controller connect failure is false. -/
theorem controller_fail_stays_connecting_cex :
    ((loopStep (fun _ => false)
        { currentState := AppState.CONNECTING, ble := mgrFound,
          connectingStarted := false }).1).currentState = AppState.ERROR ∧
    AppState.ERROR ≠ AppState.CONNECTING :=
  ⟨rfl, by decide⟩

/-- C4 (amended): if the Controller connect attempt fails during a
Connecting step, `handleError(ERR_XBOX_CONNECT_FAILED)` drives the
application state to terminal `ERROR` (not back to `Connecting`), and the
attempt latch is cleared. -/
theorem controller_fail_goes_to_error (conn : String → Bool) (s : SysState)
    (hS : s.currentState = AppState.CONNECTING)
    (hL : s.connectingStarted = false)
    (hF : (connectToXbox conn s.ble).1 = false) :
    ((loopStep conn s).1).currentState = AppState.ERROR ∧
    ((loopStep conn s).1).connectingStarted = false := by
  have hstep : loopStep conn s = connectingStep conn s := by
    unfold loopStep
    rw [hS]
  rw [hstep]
  unfold connectingStep
  rw [if_neg (by simp [hL])]
  split
  · next ble1 ev1 heq =>
      rw [heq] at hF
      simp at hF
  · next ble1 ev1 heq =>
      simp [handleError]

theorem controller_fail_goes_to_error_witness :
    ({ currentState := AppState.CONNECTING, ble := mgrFound,
       connectingStarted := false : SysState }.currentState = AppState.CONNECTING) ∧
    ((loopStep (fun _ => false)
        { currentState := AppState.CONNECTING, ble := mgrFound,
          connectingStarted := false }).1).currentState = AppState.ERROR :=
  ⟨rfl,
   (controller_fail_goes_to_error (fun _ => false)
     { currentState := AppState.CONNECTING, ble := mgrFound, connectingStarted := false }
     rfl rfl rfl).1⟩

/-- C5: while `ACTIVE`, an observed disconnect on either role drives the
application state to `SCANNING` (not terminal `ERROR`) with discovery
restarted and both Device Records reset to empty/not-found; and every error
code other than the two disconnect codes lands in terminal `ERROR`. -/
theorem active_disconnect_recovery (conn : String → Bool) (s : SysState)
    (hS : s.currentState = AppState.ACTIVE)
    (hD : isXboxConnected s.ble = false ∨ isLegoConnected s.ble = false) :
    ((loopStep conn s).1).currentState = AppState.SCANNING ∧
    ((loopStep conn s).1).ble.xboxInfo = resetDeviceInfo ∧
    ((loopStep conn s).1).ble.legoInfo = resetDeviceInfo ∧
    ((loopStep conn s).1).ble.scanning = true ∧
    (∀ (e : ErrorCode) (t : SysState),
      e ≠ ErrorCode.ERR_XBOX_DISCONNECTED → e ≠ ErrorCode.ERR_LEGO_DISCONNECTED →
      (handleError e t).currentState = AppState.ERROR) := by
  have hOther : ∀ (e : ErrorCode) (t : SysState),
      e ≠ ErrorCode.ERR_XBOX_DISCONNECTED → e ≠ ErrorCode.ERR_LEGO_DISCONNECTED →
      (handleError e t).currentState = AppState.ERROR := by
    intro e t he1 he2
    cases e
    all_goals first
      | rfl
      | exact absurd rfl he1
      | exact absurd rfl he2
  have hstep : (loopStep conn s).1 = activeStep s := by
    unfold loopStep
    rw [hS]
  rw [hstep]
  unfold activeStep
  by_cases hx : isXboxConnected s.ble
  · have hl : isLegoConnected s.ble = false := by
      rcases hD with hD | hD
      · rw [hD] at hx
        cases hx
      · exact hD
    refine ⟨?_, ?_, ?_, ?_, hOther⟩ <;>
      simp [hx, hl, handleError, startScan]
  · refine ⟨?_, ?_, ?_, ?_, hOther⟩ <;>
      simp [hx, handleError, startScan]

theorem active_disconnect_recovery_witness :
    ({ currentState := AppState.ACTIVE, ble := mgrFound,
       connectingStarted := false : SysState }.currentState = AppState.ACTIVE) ∧
    isXboxConnected mgrFound = false ∧
    ((loopStep (fun _ => true)
        { currentState := AppState.ACTIVE, ble := mgrFound,
          connectingStarted := false }).1).currentState = AppState.SCANNING ∧
    ((loopStep (fun _ => true)
        { currentState := AppState.ACTIVE, ble := mgrFound,
          connectingStarted := false }).1).ble.xboxInfo = resetDeviceInfo := by
  have h := active_disconnect_recovery (fun _ => true)
    { currentState := AppState.ACTIVE, ble := mgrFound, connectingStarted := false }
    rfl (Or.inl rfl)
  exact ⟨rfl, rfl, h.1, h.2.1⟩
